import Mathlib

/-! WS2811 JNI bridge (`Jimbo/Devices/WS2811/WS2811.C`)

A shallow embedding of the five native methods of `WS2811Raw` and of the two
file-scope variables they share (`in_use` and `leds`).

* `jint` and the C `int` fields are 32-bit; the code only stores and compares
  them, it never does arithmetic on them, so they are plain `Int` here.
* The driver library behind `<ws2811.h>` is not part of the repository.  Every
  call into it is recorded in `State.driver`, together with the handle it was
  given and the status it answered; the status is an argument of the native
  method that makes the call.
* What is written to `std::cerr` is recorded in `State.cerr`.
-/

namespace WS2811

/-- One slot of `ws2811_t::channel`, with the fields the bridge touches.
`leds` is the driver-owned pixel buffer; a cell is identified with the `jint`
that has the same 32 bits. -/
structure ws2811_channel_t where
  gpionum : Int
  invert : Int
  count : Int
  strip_type : Int
  leds : List Int
  brightness : Int
deriving DecidableEq, Repr

/-- The driver handle `ws2811_t`, with the fields the bridge touches;
`channel0` and `channel1` are `channel[0]` and `channel[1]`. -/
structure ws2811_t where
  freq : Int
  dmanum : Int
  channel0 : ws2811_channel_t
  channel1 : ws2811_channel_t
deriving DecidableEq, Repr

/-- A call into the driver library: the handle passed by address, as it was
at the call, and the `ws2811_return_t` the driver answered (`ws2811_fini`
returns nothing). -/
inductive DriverCall where
  | init (handle : ws2811_t) (status : Int)
  | render (handle : ws2811_t) (status : Int)
  | wait (handle : ws2811_t) (status : Int)
  | fini (handle : ws2811_t)
deriving DecidableEq, Repr

/-- The two variables of the anonymous namespace, the driver calls made so
far and the values reported on `std::cerr` so far (both oldest first). -/
structure State where
  in_use : Bool
  leds : ws2811_t
  driver : List DriverCall
  cerr : List Int
deriving DecidableEq, Repr

/-- Modelled from the spec: the driver's success status ("non-success status
from the driver"), declared in `ws2811.h`, which the repository does not
contain.  The bridge only tests a status for equality with it. -/
def WS2811_SUCCESS : Int := 0

/-- Modelled from the spec: the "target signal frequency (fixed driver
constant)" of `ws2811.h`, which the repository does not contain. -/
def WS2811_TARGET_FREQ : Int := 800000

def TARGET_FREQ : Int := WS2811_TARGET_FREQ

def GPIO_PIN : Int := 18

def DMA : Int := 5

/-- A channel of a zero-initialised handle (null pixel buffer). -/
def zeroChannel : ws2811_channel_t :=
  { gpionum := 0, invert := 0, count := 0, strip_type := 0, leds := [], brightness := 0 }

/-- The state at program start: `in_use (false)`, `leds` zero-initialised as
every variable of static storage is, no driver call made, nothing written. -/
def initialState : State :=
  { in_use := false
    leds := { freq := 0, dmanum := 0, channel0 := zeroChannel, channel1 := zeroChannel }
    driver := []
    cerr := [] }

/-- Modelled from the spec: what the driver's `ws2811_init` leaves in the
handle.  The library is not in the repository; the spec says the pixel buffer
is "owned by the driver" with "length == pixel_count", so a successful init
leaves every channel a buffer of `count` cells (cleared), and touches no
configuration field.  A failed init leaves the handle as it was. -/
def driver_init (status : Int) (h : ws2811_t) : ws2811_t :=
  if status = WS2811_SUCCESS then
    { h with
      channel0 := { h.channel0 with leds := List.replicate h.channel0.count.toNat 0 }
      channel1 := { h.channel1 with leds := List.replicate h.channel1.count.toNat 0 } }
  else h

/-- The assignments of `ws2811_init` (lines 39-49) to the handle. -/
def configure (type length : Int) (h : ws2811_t) : ws2811_t :=
  { freq := TARGET_FREQ
    dmanum := DMA
    channel0 :=
      { h.channel0 with
        gpionum := GPIO_PIN, count := length, invert := 0, brightness := 255,
        strip_type := type }
    channel1 := { h.channel1 with gpionum := 0, count := 0, invert := 0, brightness := 0 } }

/-- `ws2811_init (type, length)`; `status` is what the driver's `ws2811_init`
answers if it is called. -/
def Java_Jimbo_Devices_WS2811_WS2811Raw_ws2811_1init
    (type length : Int) (status : Int) (s : State) : Bool × State :=
  if s.in_use then (false, s)
  else
    let cfg := configure type length s.leds
    let s1 : State :=
      { s with leds := driver_init status cfg, driver := s.driver ++ [DriverCall.init cfg status] }
    if status ≠ WS2811_SUCCESS then (false, s1)
    else (true, { s1 with in_use := true })

/-- `ws2811_brightness (value)`. -/
def Java_Jimbo_Devices_WS2811_WS2811Raw_ws2811_1brightness
    (value : Int) (s : State) : Bool × State :=
  if value < 0 ∨ value > 255 then (false, { s with cerr := s.cerr ++ [value] })
  else
    (true, { s with leds := { s.leds with channel0 := { s.leds.channel0 with brightness := value } } })

/-- The loop of lines 103-104: `for (i = 0; i < len; ++i) leds[i] = raw[i]`.
A write lands in the cell it names; the buffer has the cells the driver gave
it. -/
def copy_pixels (raw : List Int) (len : Nat) (leds : List Int) : List Int :=
  (List.range len).foldl (fun buf i => buf.set i (raw.getD i 0)) leds

/-- `ws2811_update (jdata)`; `status` is what the driver's `ws2811_render`
answers if it is called (the code discards it). -/
def Java_Jimbo_Devices_WS2811_WS2811Raw_ws2811_1update
    (jdata : List Int) (status : Int) (s : State) : Bool × State :=
  if !s.in_use then (false, s)
  else
    let len : Nat := jdata.length
    if (len : Int) ≠ s.leds.channel0.count then (false, s)
    else
      let h : ws2811_t :=
        { s.leds with
          channel0 := { s.leds.channel0 with leds := copy_pixels jdata len s.leds.channel0.leds } }
      (true, { s with leds := h, driver := s.driver ++ [DriverCall.render h status] })

/-- `ws2811_wait ()`; `status` is what the driver's `ws2811_wait` answers if
it is called (the code discards it). -/
def Java_Jimbo_Devices_WS2811_WS2811Raw_ws2811_1wait
    (status : Int) (s : State) : Bool × State :=
  if !s.in_use then (false, s)
  else (true, { s with driver := s.driver ++ [DriverCall.wait s.leds status] })

/-- `ws2811_close ()`. -/
def Java_Jimbo_Devices_WS2811_WS2811Raw_ws2811_1close (s : State) : Bool × State :=
  let result := s.in_use
  (result, { s with in_use := false, driver := s.driver ++ [DriverCall.fini s.leds] })

/-- A call of one of the five native methods, with its arguments and, where
the method may call the driver, the status the driver would answer. -/
inductive Op where
  | init (type length : Int) (status : Int)
  | brightness (value : Int)
  | update (jdata : List Int) (status : Int)
  | wait (status : Int)
  | close
deriving DecidableEq, Repr

/-- Run one call. -/
def step (s : State) : Op → Bool × State
  | Op.init type length status => Java_Jimbo_Devices_WS2811_WS2811Raw_ws2811_1init type length status s
  | Op.brightness value => Java_Jimbo_Devices_WS2811_WS2811Raw_ws2811_1brightness value s
  | Op.update jdata status => Java_Jimbo_Devices_WS2811_WS2811Raw_ws2811_1update jdata status s
  | Op.wait status => Java_Jimbo_Devices_WS2811_WS2811Raw_ws2811_1wait status s
  | Op.close => Java_Jimbo_Devices_WS2811_WS2811Raw_ws2811_1close s

/-- The state after a sequence of calls. -/
def run (s : State) : List Op → State
  | [] => s
  | o :: ops => run (step s o).2 ops

/-- The results of a sequence of calls, in order. -/
def results (s : State) : List Op → List Bool
  | [] => []
  | o :: ops => (step s o).1 :: results (step s o).2 ops

/-- The data-model invariant "pixel_buffer length == pixel_count" for an open
session: the buffer has `count` cells. -/
def Allocated (s : State) : Prop :=
  s.in_use = true → s.leds.channel0.leds.length = s.leds.channel0.count.toNat

/-- A state with an open session of three pixels. -/
def threePixelSession : State :=
  (Java_Jimbo_Devices_WS2811_WS2811Raw_ws2811_1init 0 3 WS2811_SUCCESS initialState).2

/-- A state with no session, whose brightness was set to 40 before. -/
def dimmedIdle : State :=
  (Java_Jimbo_Devices_WS2811_WS2811Raw_ws2811_1brightness 40 initialState).2

/-- The calls of the end-to-end scenario: the driver's init answers success;
`r1`, `r2` and `w` are the statuses the driver's render and wait answer. -/
def scenario (r1 r2 w : Int) : List Op :=
  [Op.init 0 10 WS2811_SUCCESS,
   Op.update [1, 2, 3, 4, 5, 6, 7, 8, 9, 10] r1,
   Op.update [1, 2, 3, 4, 5, 6, 7, 8, 9] r2,
   Op.brightness 300,
   Op.brightness 128,
   Op.wait w,
   Op.close,
   Op.close]

/-! Helper lemmas -/

theorem foldl_set_length (f : Nat → Int) (r : List Nat) (leds : List Int) :
    (r.foldl (fun buf i => buf.set i (f i)) leds).length = leds.length := by
  induction r generalizing leds with
  | nil => rfl
  | cons a r ih =>
    rw [List.foldl_cons, ih, List.length_set]

theorem copy_pixels_length (raw leds : List Int) (len : Nat) :
    (copy_pixels raw len leds).length = leds.length :=
  foldl_set_length (fun i => raw.getD i 0) (List.range len) leds

theorem copy_pixels_getElem? (raw leds : List Int) (len i : Nat) :
    (copy_pixels raw len leds)[i]? =
      if i < len ∧ i < leds.length then some (raw.getD i 0) else leds[i]? := by
  induction len with
  | zero => simp [copy_pixels]
  | succ k ih =>
    have hstep : copy_pixels raw (k + 1) leds
        = (copy_pixels raw k leds).set k (raw.getD k 0) := by
      simp only [copy_pixels, List.range_succ, List.foldl_append, List.foldl_cons,
        List.foldl_nil]
    rw [hstep, List.getElem?_set, ih, copy_pixels_length]
    by_cases hki : k = i
    · subst hki
      by_cases hk : k < leds.length
      · simp [hk]
      · simp [hk, List.getElem?_eq_none (not_lt.mp hk)]
    · by_cases h1 : i < k
      · have h2 : i < k + 1 := by omega
        simp [hki, h1, h2]
      · have h2 : ¬ i < k + 1 := by omega
        simp [hki, h1, h2]

/-- Copying a whole array into a buffer of the same number of cells leaves
the buffer equal to the array. -/
theorem copy_pixels_eq (raw leds : List Int) (h : leds.length = raw.length) :
    copy_pixels raw raw.length leds = raw := by
  apply List.ext_getElem?
  intro i
  rw [copy_pixels_getElem?]
  by_cases hi : i < raw.length
  · have hi2 : i < leds.length := by omega
    simp [hi, hi2, List.getD_eq_getElem?_getD, List.getElem?_eq_getElem hi]
  · have hi2 : ¬ i < leds.length := by omega
    simp [hi, List.getElem?_eq_none (not_lt.mp hi), List.getElem?_eq_none (not_lt.mp hi2)]

theorem run_append (s : State) (a b : List Op) : run s (a ++ b) = run (run s a) b := by
  induction a generalizing s with
  | nil => rfl
  | cons o a ih => simp [run, ih]

theorem close_in_use (s : State) : (step s Op.close).2.in_use = false := rfl

/-- Only `ws2811_close` clears the flag. -/
theorem step_keeps_in_use (s : State) (o : Op) (hact : s.in_use = true) (ho : o ≠ Op.close) :
    (step s o).2.in_use = true := by
  cases o with
  | init type length status =>
    simp [step, Java_Jimbo_Devices_WS2811_WS2811Raw_ws2811_1init, hact]
  | brightness value =>
    simp only [step, Java_Jimbo_Devices_WS2811_WS2811Raw_ws2811_1brightness]
    split <;> exact hact
  | update jdata status =>
    simp only [step, Java_Jimbo_Devices_WS2811_WS2811Raw_ws2811_1update]
    split
    · exact hact
    · split <;> exact hact
  | wait status =>
    simp [step, Java_Jimbo_Devices_WS2811_WS2811Raw_ws2811_1wait, hact]
  | close => exact absurd rfl ho

/-- Only a `ws2811_init` that returns true sets the flag. -/
theorem step_sets_in_use (s : State) (o : Op) (hidle : s.in_use = false)
    (h : (step s o).2.in_use = true) :
    ∃ type length status, o = Op.init type length status ∧ (step s o).1 = true := by
  cases o with
  | init type length status =>
    refine ⟨type, length, status, rfl, ?_⟩
    simp only [step, Java_Jimbo_Devices_WS2811_WS2811Raw_ws2811_1init, hidle] at h ⊢
    by_cases hs : status = WS2811_SUCCESS
    · simp [hs]
    · simp [hs, hidle] at h
  | brightness value =>
    simp only [step, Java_Jimbo_Devices_WS2811_WS2811Raw_ws2811_1brightness] at h
    split at h <;> simp [hidle] at h
  | update jdata status =>
    simp [step, Java_Jimbo_Devices_WS2811_WS2811Raw_ws2811_1update, hidle] at h
  | wait status =>
    simp [step, Java_Jimbo_Devices_WS2811_WS2811Raw_ws2811_1wait, hidle] at h
  | close => simp [step, Java_Jimbo_Devices_WS2811_WS2811Raw_ws2811_1close] at h

/-- A `ws2811_init` that returns true leaves the flag set. -/
theorem init_true_in_use (s : State) (type length status : Int)
    (h : (step s (Op.init type length status)).1 = true) :
    (step s (Op.init type length status)).2.in_use = true := by
  simp only [step, Java_Jimbo_Devices_WS2811_WS2811Raw_ws2811_1init] at h ⊢
  by_cases hu : s.in_use = true
  · simp [hu] at h
  · by_cases hs : status = WS2811_SUCCESS
    · simp [hu, hs]
    · simp [hu, hs] at h

theorem run_keeps_in_use (s : State) (ops : List Op) (hact : s.in_use = true)
    (hno : Op.close ∉ ops) : (run s ops).in_use = true := by
  induction ops generalizing s with
  | nil => exact hact
  | cons o ops ih =>
    have ho : o ≠ Op.close := fun h => hno (by simp [h])
    have hrest : Op.close ∉ ops := fun h => hno (by simp [h])
    exact ih (step s o).2 (step_keeps_in_use s o hact ho) hrest

theorem step_allocated (s : State) (o : Op) (h : Allocated s) : Allocated (step s o).2 := by
  unfold Allocated at h ⊢
  cases o with
  | init type length status =>
    simp only [step, Java_Jimbo_Devices_WS2811_WS2811Raw_ws2811_1init]
    by_cases hu : s.in_use = true
    · simpa [hu] using h hu
    · by_cases hs : status = WS2811_SUCCESS
      · simp [hu, hs, driver_init, configure]
      · simp [hu, hs]
  | brightness value =>
    simp only [step, Java_Jimbo_Devices_WS2811_WS2811Raw_ws2811_1brightness]
    split <;> exact h
  | update jdata status =>
    simp only [step, Java_Jimbo_Devices_WS2811_WS2811Raw_ws2811_1update]
    split
    · exact h
    · split
      · exact h
      · intro hu
        simpa [copy_pixels_length] using h hu
  | wait status =>
    simp only [step, Java_Jimbo_Devices_WS2811_WS2811Raw_ws2811_1wait]
    split <;> exact h
  | close =>
    intro hu
    simp [step, Java_Jimbo_Devices_WS2811_WS2811Raw_ws2811_1close] at hu

/-- Every state the program reaches has the buffer cells that C1 asks for. -/
theorem run_allocated (ops : List Op) : Allocated (run initialState ops) := by
  have key : ∀ (l : List Op) (s : State), Allocated s → Allocated (run s l) := by
    intro l
    induction l with
    | nil => intro s h; exact h
    | cons o l ih => intro s h; exact ih _ (step_allocated s o h)
  exact key ops initialState (by intro h; simp [initialState] at h)

/-- The brightness field stays in `[0,255]` across every call. -/
theorem step_brightness_range (s : State) (o : Op)
    (h : 0 ≤ s.leds.channel0.brightness ∧ s.leds.channel0.brightness ≤ 255) :
    0 ≤ (step s o).2.leds.channel0.brightness ∧ (step s o).2.leds.channel0.brightness ≤ 255 := by
  cases o with
  | init type length status =>
    simp only [step, Java_Jimbo_Devices_WS2811_WS2811Raw_ws2811_1init]
    by_cases hu : s.in_use = true
    · simpa [hu] using h
    · by_cases hs : status = WS2811_SUCCESS
      · simp [hu, hs, driver_init, configure]
      · simp [hu, hs, driver_init, configure]
  | brightness value =>
    simp only [step, Java_Jimbo_Devices_WS2811_WS2811Raw_ws2811_1brightness]
    split
    · exact h
    · rename_i hv
      simp only
      omega
  | update jdata status =>
    simp only [step, Java_Jimbo_Devices_WS2811_WS2811Raw_ws2811_1update]
    split
    · exact h
    · split <;> exact h
  | wait status =>
    simp only [step, Java_Jimbo_Devices_WS2811_WS2811Raw_ws2811_1wait]
    split <;> exact h
  | close => exact h

/-- The pixel count is written by `ws2811_init` alone, and only when no
session is open. -/
theorem step_count_changes (s : State) (o : Op)
    (h : (step s o).2.leds.channel0.count ≠ s.leds.channel0.count) :
    (∃ type length status, o = Op.init type length status) ∧ s.in_use = false := by
  cases o with
  | init type length status =>
    refine ⟨⟨type, length, status, rfl⟩, ?_⟩
    by_contra hu
    simp [step, Java_Jimbo_Devices_WS2811_WS2811Raw_ws2811_1init, hu] at h
  | brightness value =>
    exfalso; apply h
    simp only [step, Java_Jimbo_Devices_WS2811_WS2811Raw_ws2811_1brightness]
    split <;> rfl
  | update jdata status =>
    exfalso; apply h
    simp only [step, Java_Jimbo_Devices_WS2811_WS2811Raw_ws2811_1update]
    split
    · rfl
    · split <;> rfl
  | wait status =>
    exfalso; apply h
    simp only [step, Java_Jimbo_Devices_WS2811_WS2811Raw_ws2811_1wait]
    split <;> rfl
  | close => exact absurd rfl h

theorem results_close_idle (s : State) (k : Nat) (hidle : s.in_use = false) :
    results s (List.replicate k Op.close) = List.replicate k false ∧
    (run s (List.replicate k Op.close)).in_use = false := by
  induction k generalizing s with
  | zero => exact ⟨rfl, hidle⟩
  | succ k ih =>
    have h := ih (step s Op.close).2 (close_in_use s)
    simp only [List.replicate_succ, results, run]
    refine ⟨?_, h.2⟩
    rw [h.1]
    simp [step, Java_Jimbo_Devices_WS2811_WS2811Raw_ws2811_1close, hidle]

/-! The claims -/

/-- C1: in a state with a session active, pixel count `n` and the `n` buffer
cells of the data model, `ws2811_update` on an array of length exactly `n`
returns true whatever status the driver's render answers; afterwards the
channel-0 buffer is the array, cell for cell and in order, nothing else of the
handle or of `in_use` has changed, and exactly one driver call has been added,
a render that sees the handle with the copied buffer. -/
theorem C1_update_stores_frame (s : State) (jdata : List Int) (status : Int)
    (hact : s.in_use = true)
    (hlen : (jdata.length : Int) = s.leds.channel0.count)
    (hbuf : (s.leds.channel0.leds.length : Int) = s.leds.channel0.count) :
    (Java_Jimbo_Devices_WS2811_WS2811Raw_ws2811_1update jdata status s).1 = true ∧
    (Java_Jimbo_Devices_WS2811_WS2811Raw_ws2811_1update jdata status s).2.leds.channel0.leds
      = jdata ∧
    (∀ i, i < jdata.length →
      (Java_Jimbo_Devices_WS2811_WS2811Raw_ws2811_1update jdata status s).2.leds.channel0.leds[i]?
        = jdata[i]?) ∧
    (Java_Jimbo_Devices_WS2811_WS2811Raw_ws2811_1update jdata status s).2 =
      { s with
        leds := { s.leds with channel0 := { s.leds.channel0 with leds := jdata } }
        driver := s.driver ++
          [DriverCall.render
            { s.leds with channel0 := { s.leds.channel0 with leds := jdata } } status] } := by
  have hb : s.leds.channel0.leds.length = jdata.length := by omega
  have hcopy := copy_pixels_eq jdata s.leds.channel0.leds hb
  simp [Java_Jimbo_Devices_WS2811_WS2811Raw_ws2811_1update, hact, hlen, hcopy]

/-- C1 at a three-pixel session and the array `[7, -8, 9]`, the render answering 1. -/
theorem C1_update_stores_frame_witness :
    (Java_Jimbo_Devices_WS2811_WS2811Raw_ws2811_1update [7, -8, 9] 1 threePixelSession).1 = true ∧
    (Java_Jimbo_Devices_WS2811_WS2811Raw_ws2811_1update [7, -8, 9] 1
      threePixelSession).2.leds.channel0.leds = [7, -8, 9] :=
  have h := C1_update_stores_frame threePixelSession [7, -8, 9] 1
    (by decide) (by decide) (by decide)
  ⟨h.1, h.2.1⟩

/-- C2: with a session active, `ws2811_update` on an array whose length is
not the pixel count returns false and leaves the state as it was: the pixel
buffer, every other field, and the list of driver calls (no render). -/
theorem C2_update_rejects_length (s : State) (jdata : List Int) (status : Int)
    (hact : s.in_use = true)
    (hlen : (jdata.length : Int) ≠ s.leds.channel0.count) :
    Java_Jimbo_Devices_WS2811_WS2811Raw_ws2811_1update jdata status s = (false, s) := by
  simp [Java_Jimbo_Devices_WS2811_WS2811Raw_ws2811_1update, hact, hlen]

/-- C2 at a three-pixel session: the empty array, a shorter and a longer one. -/
theorem C2_update_rejects_length_witness :
    Java_Jimbo_Devices_WS2811_WS2811Raw_ws2811_1update [] 0 threePixelSession
        = (false, threePixelSession) ∧
    Java_Jimbo_Devices_WS2811_WS2811Raw_ws2811_1update [1, 2] 0 threePixelSession
        = (false, threePixelSession) ∧
    Java_Jimbo_Devices_WS2811_WS2811Raw_ws2811_1update [1, 2, 3, 4] 0 threePixelSession
        = (false, threePixelSession) :=
  ⟨C2_update_rejects_length threePixelSession [] 0 (by decide) (by decide),
   C2_update_rejects_length threePixelSession [1, 2] 0 (by decide) (by decide),
   C2_update_rejects_length threePixelSession [1, 2, 3, 4] 0 (by decide) (by decide)⟩

/-- C3: in every state, `ws2811_brightness (value)` returns true exactly when
`0 <= value <= 255`.  When it returns true the state afterwards is the state
before with the channel-0 brightness set to `value` (so `in_use`, count, strip
type, buffer and the list of driver calls are as before).  When it returns
false the variables `in_use` and `leds` and the list of driver calls are as
before; the only effect is the value reported on `std::cerr`. -/
theorem C3_brightness (s : State) (value : Int) :
    ((Java_Jimbo_Devices_WS2811_WS2811Raw_ws2811_1brightness value s).1 = true ↔
      0 ≤ value ∧ value ≤ 255) ∧
    ((Java_Jimbo_Devices_WS2811_WS2811Raw_ws2811_1brightness value s).1 = true →
      (Java_Jimbo_Devices_WS2811_WS2811Raw_ws2811_1brightness value s).2 =
        { s with leds := { s.leds with channel0 := { s.leds.channel0 with brightness := value } } }
      ∧ (Java_Jimbo_Devices_WS2811_WS2811Raw_ws2811_1brightness value s).2.leds.channel0.brightness
        = value) ∧
    ((Java_Jimbo_Devices_WS2811_WS2811Raw_ws2811_1brightness value s).1 = false →
      (Java_Jimbo_Devices_WS2811_WS2811Raw_ws2811_1brightness value s).2 =
        { s with cerr := s.cerr ++ [value] }
      ∧ (Java_Jimbo_Devices_WS2811_WS2811Raw_ws2811_1brightness value s).2.in_use = s.in_use
      ∧ (Java_Jimbo_Devices_WS2811_WS2811Raw_ws2811_1brightness value s).2.leds = s.leds
      ∧ (Java_Jimbo_Devices_WS2811_WS2811Raw_ws2811_1brightness value s).2.driver = s.driver) := by
  unfold Java_Jimbo_Devices_WS2811_WS2811Raw_ws2811_1brightness
  by_cases h : value < 0 ∨ value > 255
  · have h2 : ¬ (0 ≤ value ∧ value ≤ 255) := by omega
    simp [h, h2]
  · have h2 : 0 ≤ value ∧ value ≤ 255 := by omega
    simp [h, h2]

/-- C4: with a session active, `ws2811_init` returns false for every pair of
arguments and every status the driver might answer, and leaves the state as
it was: no driver call is added, and `in_use`, pixel count, strip type and
brightness keep their values. -/
theorem C4_init_while_active (s : State) (type length status : Int)
    (hact : s.in_use = true) :
    Java_Jimbo_Devices_WS2811_WS2811Raw_ws2811_1init type length status s = (false, s) := by
  simp [Java_Jimbo_Devices_WS2811_WS2811Raw_ws2811_1init, hact]

/-- C4 at a three-pixel session and a second init for fifty pixels. -/
theorem C4_init_while_active_witness :
    Java_Jimbo_Devices_WS2811_WS2811Raw_ws2811_1init 1 50 WS2811_SUCCESS threePixelSession
      = (false, threePixelSession) :=
  C4_init_while_active threePixelSession 1 50 WS2811_SUCCESS (by decide)

/-- C5: in every state `ws2811_close` returns the value `in_use` had before
the call, leaves `in_use` false and adds one driver call, the release
(`ws2811_fini`), whether or not a session was open; hence of `k + 1` closes in
a row the first returns the old flag and every later one returns false, and
the flag is false after each of them. -/
theorem C5_close (s : State) :
    (Java_Jimbo_Devices_WS2811_WS2811Raw_ws2811_1close s).1 = s.in_use ∧
    (Java_Jimbo_Devices_WS2811_WS2811Raw_ws2811_1close s).2.in_use = false ∧
    (Java_Jimbo_Devices_WS2811_WS2811Raw_ws2811_1close s).2.driver
      = s.driver ++ [DriverCall.fini s.leds] ∧
    (∀ k : Nat,
      results s (List.replicate (k + 1) Op.close) = s.in_use :: List.replicate k false ∧
      (run s (List.replicate (k + 1) Op.close)).in_use = false) ∧
    (∀ k j : Nat, 1 ≤ j → j < k →
      (results s (List.replicate k Op.close))[j]? = some false) := by
  have hk : ∀ k : Nat,
      results s (List.replicate (k + 1) Op.close) = s.in_use :: List.replicate k false ∧
      (run s (List.replicate (k + 1) Op.close)).in_use = false := by
    intro k
    have h := results_close_idle (step s Op.close).2 k (close_in_use s)
    simp only [List.replicate_succ, results, run]
    exact ⟨by rw [h.1]; rfl, h.2⟩
  refine ⟨rfl, rfl, rfl, hk, ?_⟩
  intro k j hj hjk
  obtain ⟨m, rfl⟩ : ∃ m, k = m + 1 := ⟨k - 1, by omega⟩
  rw [(hk m).1]
  obtain ⟨i, rfl⟩ : ∃ i, j = i + 1 := ⟨j - 1, by omega⟩
  have hi : i < m := by omega
  simp [List.getElem?_replicate, hi]

/-- C6: after any sequence of calls from the initial state, `in_use` is true
exactly when the sequence has a `ws2811_init` that returned true with no
`ws2811_close` after it.  In a reached state with the flag false,
`ws2811_update` (any array) and `ws2811_wait` return false and leave the state
as it was, driver calls included; in a reached state with the flag true
`ws2811_wait` returns true. -/
theorem C6_in_use_gates (ops : List Op) :
    ((run initialState ops).in_use = true ↔
      ∃ pre type length status post,
        ops = pre ++ Op.init type length status :: post ∧
        (step (run initialState pre) (Op.init type length status)).1 = true ∧
        Op.close ∉ post) ∧
    ((run initialState ops).in_use = false →
      (∀ jdata status,
        Java_Jimbo_Devices_WS2811_WS2811Raw_ws2811_1update jdata status (run initialState ops)
          = (false, run initialState ops)) ∧
      (∀ status,
        Java_Jimbo_Devices_WS2811_WS2811Raw_ws2811_1wait status (run initialState ops)
          = (false, run initialState ops))) ∧
    ((run initialState ops).in_use = true →
      ∀ status,
        (Java_Jimbo_Devices_WS2811_WS2811Raw_ws2811_1wait status (run initialState ops)).1
          = true) := by
  refine ⟨⟨?_, ?_⟩, ?_, ?_⟩
  · induction ops using List.reverseRecOn with
    | nil => intro h; simp [run, initialState] at h
    | append_singleton ops o ih =>
      intro h
      rw [run_append] at h
      simp only [run] at h
      by_cases hu : (run initialState ops).in_use = true
      · obtain ⟨pre, type, length, status, post, hops, hres, hpost⟩ := ih hu
        have ho : o ≠ Op.close := by
          intro hc
          rw [hc, close_in_use] at h
          exact Bool.false_ne_true h
        refine ⟨pre, type, length, status, post ++ [o], ?_, hres, ?_⟩
        · rw [hops]; simp
        · intro hmem
          rcases List.mem_append.mp hmem with h1 | h1
          · exact hpost h1
          · exact ho (List.mem_singleton.mp h1).symm
      · have hidle : (run initialState ops).in_use = false := by simpa using hu
        obtain ⟨type, length, status, rfl, hres⟩ := step_sets_in_use _ o hidle h
        exact ⟨ops, type, length, status, [], rfl, hres, by simp⟩
  · rintro ⟨pre, type, length, status, post, rfl, hres, hpost⟩
    rw [run_append]
    simp only [run]
    exact run_keeps_in_use _ post (init_true_in_use _ type length status hres) hpost
  · intro hidle
    constructor
    · intro jdata status
      simp [Java_Jimbo_Devices_WS2811_WS2811Raw_ws2811_1update, hidle]
    · intro status
      simp [Java_Jimbo_Devices_WS2811_WS2811Raw_ws2811_1wait, hidle]
  · intro hact status
    simp [Java_Jimbo_Devices_WS2811_WS2811Raw_ws2811_1wait, hact]

/-- C7: with no session active, `ws2811_init (type, length)` makes one driver
call, the driver's init, on a handle with DMA index 5, channel 0 on GPIO 18
with count `length`, inversion 0, brightness 255 (whatever it was before) and
strip type `type`, and channel 1 with count 0 and brightness 0.  It returns
true, and `in_use` is true afterwards, exactly when the driver answers
success; on any other status it returns false and `in_use` stays false. -/
theorem C7_init_configures (s : State) (type length status : Int)
    (hidle : s.in_use = false) :
    (Java_Jimbo_Devices_WS2811_WS2811Raw_ws2811_1init type length status s).2.driver
      = s.driver ++ [DriverCall.init (configure type length s.leds) status] ∧
    (configure type length s.leds).freq = WS2811_TARGET_FREQ ∧
    (configure type length s.leds).dmanum = 5 ∧
    (configure type length s.leds).channel0.gpionum = 18 ∧
    (configure type length s.leds).channel0.count = length ∧
    (configure type length s.leds).channel0.invert = 0 ∧
    (configure type length s.leds).channel0.brightness = 255 ∧
    (configure type length s.leds).channel0.strip_type = type ∧
    (configure type length s.leds).channel1.count = 0 ∧
    (configure type length s.leds).channel1.brightness = 0 ∧
    ((Java_Jimbo_Devices_WS2811_WS2811Raw_ws2811_1init type length status s).1 = true ↔
      status = WS2811_SUCCESS) ∧
    ((Java_Jimbo_Devices_WS2811_WS2811Raw_ws2811_1init type length status s).2.in_use = true ↔
      status = WS2811_SUCCESS) ∧
    (status ≠ WS2811_SUCCESS →
      (Java_Jimbo_Devices_WS2811_WS2811Raw_ws2811_1init type length status s).1 = false ∧
      (Java_Jimbo_Devices_WS2811_WS2811Raw_ws2811_1init type length status s).2.in_use = false) := by
  by_cases hs : status = WS2811_SUCCESS
  · simp [Java_Jimbo_Devices_WS2811_WS2811Raw_ws2811_1init, hidle, hs, configure,
      TARGET_FREQ, DMA, GPIO_PIN]
  · simp [Java_Jimbo_Devices_WS2811_WS2811Raw_ws2811_1init, hidle, hs, configure,
      TARGET_FREQ, DMA, GPIO_PIN]

/-- C7 at an idle state whose brightness was 40: the driver answering success and -3. -/
theorem C7_init_configures_witness :
    (Java_Jimbo_Devices_WS2811_WS2811Raw_ws2811_1init 2 7 WS2811_SUCCESS dimmedIdle).1 = true ∧
    (Java_Jimbo_Devices_WS2811_WS2811Raw_ws2811_1init 2 7 (-3) dimmedIdle).1 = false ∧
    (configure 2 7 dimmedIdle.leds).channel0.brightness = 255 :=
  ⟨(C7_init_configures dimmedIdle 2 7 WS2811_SUCCESS (by decide)).2.2.2.2.2.2.2.2.2.2.1.mpr rfl,
   ((C7_init_configures dimmedIdle 2 7 (-3) (by decide)).2.2.2.2.2.2.2.2.2.2.2.2 (by decide)).1,
   (C7_init_configures dimmedIdle 2 7 0 (by decide)).2.2.2.2.2.2.1⟩

/-- C8, as stated, fails: in the initial state (no session)
`ws2811_brightness (128)` returns true. -/
theorem C8_counterexample :
    initialState.in_use = false ∧
    (Java_Jimbo_Devices_WS2811_WS2811Raw_ws2811_1brightness 128 initialState).1 = true := by
  decide

/-- C8, amended: with `in_use` false, `ws2811_update`, `ws2811_wait` and
`ws2811_close` return false for every argument; `ws2811_brightness` does not
read the flag and returns true exactly when `0 <= value <= 255`. -/
theorem C8_idle_fails_fast (s : State) (hidle : s.in_use = false) :
    (∀ jdata status,
      (Java_Jimbo_Devices_WS2811_WS2811Raw_ws2811_1update jdata status s).1 = false) ∧
    (∀ status, (Java_Jimbo_Devices_WS2811_WS2811Raw_ws2811_1wait status s).1 = false) ∧
    (Java_Jimbo_Devices_WS2811_WS2811Raw_ws2811_1close s).1 = false ∧
    (∀ value,
      (Java_Jimbo_Devices_WS2811_WS2811Raw_ws2811_1brightness value s).1 = true ↔
        0 ≤ value ∧ value ≤ 255) := by
  refine ⟨?_, ?_, ?_, ?_⟩
  · intro jdata status
    simp [Java_Jimbo_Devices_WS2811_WS2811Raw_ws2811_1update, hidle]
  · intro status
    simp [Java_Jimbo_Devices_WS2811_WS2811Raw_ws2811_1wait, hidle]
  · simp [Java_Jimbo_Devices_WS2811_WS2811Raw_ws2811_1close, hidle]
  · intro value
    unfold Java_Jimbo_Devices_WS2811_WS2811Raw_ws2811_1brightness
    by_cases h : value < 0 ∨ value > 255
    · have h2 : ¬ (0 ≤ value ∧ value ≤ 255) := by omega
      simp [h, h2]
    · have h2 : 0 ≤ value ∧ value ≤ 255 := by omega
      simp [h, h2]

/-- C8, amended, at the initial state. -/
theorem C8_idle_fails_fast_witness :
    (Java_Jimbo_Devices_WS2811_WS2811Raw_ws2811_1update [] 0 initialState).1 = false ∧
    (Java_Jimbo_Devices_WS2811_WS2811Raw_ws2811_1wait 0 initialState).1 = false ∧
    (Java_Jimbo_Devices_WS2811_WS2811Raw_ws2811_1close initialState).1 = false :=
  have h := C8_idle_fails_fast initialState (by decide)
  ⟨h.1 [] 0, h.2.1 0, h.2.2.1⟩

/-- C9: from the initial state, with the driver's init answering success and
whatever the driver's render and wait answer, the calls init (0, 10),
update ([1..10]), update ([1..9]), brightness (300), brightness (128), wait,
close, close return true, true, false, false, true, true, true, false. -/
theorem C9_scenario (r1 r2 w : Int) :
    results initialState (scenario r1 r2 w)
      = [true, true, false, false, true, true, true, false] := by
  simp [scenario, results, step, initialState, zeroChannel, WS2811_SUCCESS,
    Java_Jimbo_Devices_WS2811_WS2811Raw_ws2811_1init,
    Java_Jimbo_Devices_WS2811_WS2811Raw_ws2811_1update,
    Java_Jimbo_Devices_WS2811_WS2811Raw_ws2811_1brightness,
    Java_Jimbo_Devices_WS2811_WS2811Raw_ws2811_1wait,
    Java_Jimbo_Devices_WS2811_WS2811Raw_ws2811_1close, configure, driver_init]

/-- C10: in every state reached from the initial state the channel-0
brightness is in `[0,255]`; a call that changes the channel-0 pixel count is a
`ws2811_init` made with `in_use` false, so while a session is active no call
changes the count. -/
theorem C10_brightness_range_count_fixed (ops : List Op) :
    (0 ≤ (run initialState ops).leds.channel0.brightness ∧
      (run initialState ops).leds.channel0.brightness ≤ 255) ∧
    (∀ o : Op,
      (step (run initialState ops) o).2.leds.channel0.count
          ≠ (run initialState ops).leds.channel0.count →
        (∃ type length status, o = Op.init type length status) ∧
        (run initialState ops).in_use = false) ∧
    (∀ o : Op, (run initialState ops).in_use = true →
      (step (run initialState ops) o).2.leds.channel0.count
        = (run initialState ops).leds.channel0.count) := by
  refine ⟨?_, ?_, ?_⟩
  · have key : ∀ (l : List Op) (s : State),
        (0 ≤ s.leds.channel0.brightness ∧ s.leds.channel0.brightness ≤ 255) →
        0 ≤ (run s l).leds.channel0.brightness ∧ (run s l).leds.channel0.brightness ≤ 255 := by
      intro l
      induction l with
      | nil => intro s h; exact h
      | cons o l ih => intro s h; exact ih _ (step_brightness_range s o h)
    exact key ops initialState (by decide)
  · intro o h
    exact step_count_changes _ o h
  · intro o hact
    by_contra hne
    have h := (step_count_changes _ o hne).2
    rw [hact] at h
    exact Bool.noConfusion h

end WS2811
